/-
Verification of the predictive-maintenance ingestion-and-prediction pipeline.

The development shallowly embeds the Python modules
  app/api/v1/predictions.py   (compute_risk, predict, history)
  app/api/v1/machine_utils.py (score_to_label, call_ml_service_with_retry, parse_metadata)
  app/services/db_service.py  (insert_reading, fetch_readings)
  app/api/v1/ingest.py        (get_ingest bounds validation)
into Lean.  Python floats are modelled as rationals, decoded JSON values as
the inductive `PyVal` (whose `PyVal.none` constructor is the Python `None`),
and the external ML endpoint / database as explicit oracle parameters.
-/
import Mathlib

namespace PMC

/-- A decoded Python value as produced by `r.json()` / stored rows.
`PyVal.none` is Python `None` (JSON `null` decodes to it). -/
inductive PyVal where
  | none : PyVal
  | num  : ℚ → PyVal
  | str  : String → PyVal
  | bool : Bool → PyVal
  | list : List PyVal → PyVal
  | dict : List (String × PyVal) → PyVal

/-- The Python test `x is None` on a decoded value. -/
def isPyNone : PyVal → Bool
  | PyVal.none => true
  | _ => false

/-- Python truthiness of a value: `None`, `0`, `""`, `[]`, `{}`, `False`
are falsy, everything else truthy. -/
def truthy : PyVal → Bool
  | PyVal.none => false
  | PyVal.num q => decide (q ≠ 0)
  | PyVal.str s => decide (s ≠ "")
  | PyVal.bool b => b
  | PyVal.list xs => !xs.isEmpty
  | PyVal.dict fs => !fs.isEmpty

/-- Python `a or b`: `a` if truthy, else `b`. -/
def pyOr (a b : PyVal) : PyVal := if truthy a then a else b

/-- First value bound to `key` in a decoded dict, `Option.none` when the key
is absent (a present JSON-null binding yields `some PyVal.none`). -/
def dget : List (String × PyVal) → String → Option PyVal
  | [], _ => Option.none
  | (k, v) :: rest, key => if k = key then some v else dget rest key

/-- Python `d.get(key)`: absent keys give `None`. -/
def pyGet (fs : List (String × PyVal)) (key : String) : PyVal :=
  (dget fs key).getD PyVal.none

/-- Python `d.get(key, default)`. -/
def pyGetD (fs : List (String × PyVal)) (key : String) (default : PyVal) : PyVal :=
  (dget fs key).getD default

/-- Value of a list of decimal digit characters. -/
def digitsToNat (cs : List Char) : ℕ :=
  cs.foldl (fun acc c => acc * 10 + (c.toNat - 48)) 0

/-- Python `float(str)` strips surrounding whitespace first; character-list
version so that evaluation reduces in the kernel. -/
def trimChars (cs : List Char) : List Char :=
  ((cs.dropWhile (fun c => c.isWhitespace)).reverse.dropWhile
    (fun c => c.isWhitespace)).reverse

/-- Models Python `float(s)` on a string: optional sign, integer digits,
optional fractional part; anything else raises (here: `Option.none`). -/
def parsePyFloat (s : String) : Option ℚ :=
  let cs := trimChars s.toList
  let sign : ℚ := if cs.head? = some '-' then -1 else 1
  let body := if cs.head? = some '-' ∨ cs.head? = some '+' then cs.tail else cs
  let ip := body.takeWhile (fun c => c.isDigit)
  let rest := body.dropWhile (fun c => c.isDigit)
  match rest with
  | [] =>
      if ip.isEmpty then Option.none
      else some (sign * (digitsToNat ip : ℚ))
  | '.' :: fp =>
      if fp.all (fun c => c.isDigit) && !(ip.isEmpty && fp.isEmpty) then
        some (sign * ((digitsToNat ip : ℚ) + (digitsToNat fp : ℚ) / 10 ^ fp.length))
      else Option.none
  | _ => Option.none

/-- Models Python `float(x)` on a decoded value (`Option.none` = exception). -/
def pyFloat : PyVal → Option ℚ
  | PyVal.num q => some q
  | PyVal.bool b => some (if b then 1 else 0)
  | PyVal.str s => parsePyFloat s
  | _ => Option.none

/-- The coercion block of `predict`:
`try: failure_prob = float(failure_prob) if failure_prob is not None else None
 except Exception: failure_prob = None`. -/
def coerceFloat : PyVal → Option ℚ
  | PyVal.none => Option.none
  | v => pyFloat v

/-- Python `x or 0.0` applied to an optional float (`None -> 0.0`,
`0.0 -> 0.0`, any other float is returned as-is). -/
def pyOrZero : Option ℚ → ℚ
  | Option.none => 0
  | some q => if q = 0 then 0 else q

-- ============================================================
-- RiskEngine: compute_risk (app/api/v1/predictions.py lines 25-53)
-- ============================================================

/-- The Python guard `x is not None and x > th` for an optional float. -/
def notNoneAndGt (x : Option ℚ) (th : ℚ) : Bool :=
  match x with
  | Option.none => false
  | some y => decide (th < y)

/-- Embeds `compute_risk(temp_k, vib, current)`.  The source returns the
Indonesian tier names: `"Bahaya"` is the Danger tier and `"Waspada"` the
Watch tier of the specification. -/
def compute_risk (temp_k vib current : Option ℚ) : String :=
  if temp_k.isNone && vib.isNone && current.isNone then "Unknown"
  else if notNoneAndGt temp_k 315 || notNoneAndGt vib 2200 || notNoneAndGt current 85 then
    "Bahaya"
  else if notNoneAndGt temp_k 305 || notNoneAndGt vib 1600 || notNoneAndGt current 65 then
    "Waspada"
  else "Normal"

/-- A present input strictly exceeding a threshold (written from the
wording of the specification: a null input never triggers its own condition). -/
def specExceeds (x : Option ℚ) (th : ℚ) : Bool :=
  x.elim false (fun y => decide (y > th))

/-- The risk classification as the specification states it: `Unknown` when
all three inputs are null, else Danger when temperature > 315 or
vibration > 2200 or current > 85, else Watch when temperature > 305 or
vibration > 1600 or current > 65, else Normal, first match winning. -/
def computeRiskSpec (t v c : Option ℚ) : String :=
  if t = Option.none ∧ v = Option.none ∧ c = Option.none then "Unknown"
  else if specExceeds t 315 ∨ specExceeds v 2200 ∨ specExceeds c 85 then "Bahaya"
  else if specExceeds t 305 ∨ specExceeds v 1600 ∨ specExceeds c 65 then "Waspada"
  else "Normal"

-- ============================================================
-- score_to_label (app/api/v1/machine_utils.py lines 33-34)
-- ============================================================

/-- Embeds `score_to_label(score)`. -/
def score_to_label (score : ℚ) : String :=
  if score < 3/10 then "normal" else if score < 7/10 then "warning" else "failure"

/-- The label stored when the remote label is absent:
`score_to_label(failure_prob or 0.0)` (predictions.py line 132). -/
def derived_label (failure_prob : Option ℚ) : String :=
  score_to_label (pyOrZero failure_prob)

-- ============================================================
-- call_ml_service_with_retry (app/api/v1/machine_utils.py lines 37-48)
-- ============================================================

/-- Outcome of the retry loop: the returned value or the raised
`last_error` (`Option.none` when the loop body never ran), the number of
attempts performed, and the sleeps performed between/after attempts. -/
structure RetryOutcome (E R : Type) where
  result : Except (Option E) R
  attempts : ℕ
  delays : List ℚ

/-- The `for i in range(retries)` loop of `call_ml_service_with_retry`:
each iteration posts (here: queries the oracle at the attempt index); on
success the JSON result is returned, on exception the error is recorded as
`last_error` and the loop sleeps `backoff * 2 ** i` before continuing. -/
def retryGo {E R : Type} (oracle : ℕ → Except E R) (backoff : ℚ) :
    ℕ → ℕ → List ℚ → Option E → RetryOutcome E R
  | 0, i, delays, lastErr => RetryOutcome.mk (Except.error lastErr) i delays
  | Nat.succ remaining, i, delays, _ =>
      match oracle i with
      | Except.ok r => RetryOutcome.mk (Except.ok r) (i + 1) delays
      | Except.error e =>
          retryGo oracle backoff remaining (i + 1) (delays ++ [backoff * 2 ^ i]) (some e)

/-- Embeds `call_ml_service_with_retry(url, payload, retries=5, backoff=0.5)`
with the endpoint abstracted as an oracle from attempt index to outcome. -/
def call_ml_service_with_retry {E R : Type} (oracle : ℕ → Except E R)
    (retries : ℕ) (backoff : ℚ) : RetryOutcome E R :=
  retryGo oracle backoff retries 0 [] Option.none

/-- The call with its default arguments `retries=5, backoff=0.5`. -/
def call_ml_default {E R : Type} (oracle : ℕ → Except E R) : RetryOutcome E R :=
  call_ml_service_with_retry oracle 5 (1/2)

-- ============================================================
-- Normalization of the ML response (predictions.py lines 110-132)
-- ============================================================

/-- The normalized fields extracted from the raw ML response:
`failure_prob` after the float coercion, the remaining fields as the raw
Python values the `or`-chains produced. -/
structure Normalized where
  failure_prob : Option ℚ
  prediction_label : PyVal
  model_version : PyVal
  raw_scores : PyVal
  raw_features : PyVal
  meta : PyVal

/-- Embeds the normalization block of `predict` (predictions.py 110-130):
the `isinstance(ml, dict)` branch runs the `or`-chains over the documented
key aliases and `meta = ml.get("meta", ml.get("explain", {}))`; a non-dict
response leaves all fields `None` and wraps the value in
`{"raw_ml_response": ml}`; finally `failure_prob` is coerced with
`float(...)`, exceptions giving `None`. -/
def normalize_ml (ml : PyVal) : Normalized :=
  match ml with
  | PyVal.dict fs =>
      Normalized.mk
        (coerceFloat (pyOr (pyGet fs "failure_probability") (pyGet fs "score")))
        (pyOr (pyGet fs "prediction_label") (pyGet fs "label"))
        (pyOr (pyGet fs "model_version") (pyGet fs "model_name"))
        (pyOr (pyOr (pyGet fs "raw_scores") (pyGet fs "scores")) (pyGet fs "probabilities"))
        (pyOr (pyGet fs "raw_features") (pyGet fs "features"))
        (pyGetD fs "meta" (pyGetD fs "explain" (PyVal.dict [])))
  | v =>
      Normalized.mk Option.none PyVal.none PyVal.none PyVal.none PyVal.none
        (PyVal.dict [("raw_ml_response", v)])

-- ============================================================
-- Storage: insert_reading / fetch_readings (app/services/db_service.py)
-- ============================================================

/-- A sensor reading record as assembled into `insert_values`
(db_service.py lines 192-202); `ts` is kept as its ISO string. -/
structure Reading where
  id : String
  ts : String
  machine_id : String
  air_temperature : Option ℚ
  process_temperature : Option ℚ
  rotational_speed : Option ℚ
  torque : Option ℚ
  tool_wear : Option ℚ
  deriving DecidableEq

/-- The module-level storage state: `durable = some rows` when the
SQLAlchemy engine was initialized (`_engine is not None`), else
`Option.none`; `memory` is the `_memory_store` fallback list. -/
structure DbState where
  durable : Option (List Reading)
  memory : List Reading
  deriving DecidableEq

/-- What `insert_reading` hands back to its caller together with the
storage state after the call. -/
structure WriteOutcome where
  result : Except Unit String
  state : DbState

/-- Embeds the storage phase of `insert_reading` (db_service.py 204-225),
acting on the already-assembled `insert_values` record `r`.  `dbWriteOk`
and `memAppendOk` inject the success/failure of the durable INSERT and of
the fallback `_memory_store.append`.  The source catches the append
exception, logs it and still returns `inserted_id`, so the caller is never
handed a failure. -/
def insert_reading (dbWriteOk memAppendOk : Bool) (st : DbState) (r : Reading) :
    WriteOutcome :=
  match st.durable with
  | some rows =>
      if dbWriteOk then
        WriteOutcome.mk (Except.ok r.id) (DbState.mk (some (rows ++ [r])) st.memory)
      else if memAppendOk then
        WriteOutcome.mk (Except.ok r.id) (DbState.mk (some rows) (st.memory ++ [r]))
      else
        WriteOutcome.mk (Except.ok r.id) st
  | Option.none =>
      if memAppendOk then
        WriteOutcome.mk (Except.ok r.id) (DbState.mk Option.none (st.memory ++ [r]))
      else
        WriteOutcome.mk (Except.ok r.id) st

/-- Embeds the memory-fallback path of `fetch_readings`
(db_service.py 246-256): filter by machine, stable sort newest first by the
ISO `ts` string, then the slice `[offset : offset + limit]`. -/
def fetch_readings (store : List Reading) (machine_id : Option String)
    (limit offset : ℕ) : List Reading :=
  let filtered := store.filter (fun r =>
    match machine_id with
    | Option.none => true
    | some m => r.machine_id = m)
  let sorted := filtered.mergeSort (fun a b => decide (b.ts ≤ a.ts))
  (sorted.drop offset).take limit

-- ============================================================
-- get_ingest bounds validation (app/api/v1/ingest.py lines 68-91)
-- ============================================================

/-- The FastAPI validation of `limit: int = Query(100, gt=1, le=5000)`. -/
def limit_ok (limit : ℤ) : Bool :=
  decide (1 < limit) && decide (limit ≤ 5000)

/-- The FastAPI validation of `offset: int = Query(0, ge=0)`. -/
def offset_ok (offset : ℤ) : Bool :=
  decide (0 ≤ offset)

/-- Embeds `GET /ingest`: a request whose query parameters fail validation
is rejected (HTTP 422) before the handler runs; otherwise the handler
delegates to `db_service.fetch_readings`. -/
def get_ingest (store : List Reading) (machine_id : Option String)
    (limit offset : ℤ) : Except Unit (List Reading) :=
  if limit_ok limit && offset_ok offset then
    Except.ok (fetch_readings store machine_id limit.toNat offset.toNat)
  else
    Except.error ()

-- ============================================================
-- predict / history (app/api/v1/predictions.py)
-- ============================================================

/-- A row of the `predictions` table as written by `predict`
(and as read back by `history`). -/
structure PredRecord where
  id : String
  sensor_reading_id : Option String
  machine_id : String
  model_version : PyVal
  prediction_label : PyVal
  failure_probability : Option ℚ
  raw_scores : PyVal
  raw_features : PyVal
  metadata : PyVal

/-- The `PredictionResult` pydantic response model (machine_utils.py 15-24). -/
structure PredictionResult where
  prediction_id : String
  model_name : PyVal
  label : PyVal
  score : Option ℚ
  meta : PyVal

/-- Errors `predict` can surface: HTTP 404 when no readings exist, HTTP 502
when the ML call exhausted its retries. -/
inductive PredictErr where
  | notFound : PredictErr
  | mlError : PredictErr
  deriving DecidableEq

/-- Models `json.dumps(x) if x is not None else "{}"` as applied to the document
columns before the INSERT (predictions.py 157-159). -/
def jsonOrEmpty (v : PyVal) : PyVal :=
  match v with
  | PyVal.none => PyVal.dict []
  | v => v

/-- Models `label_to_store = prediction_label if prediction_label is not None else
score_to_label(failure_prob or 0.0)` (predictions.py line 132). -/
def label_to_store (prediction_label : PyVal) (failure_prob : Option ℚ) : PyVal :=
  match prediction_label with
  | PyVal.none => PyVal.str (derived_label failure_prob)
  | v => v

/-- Embeds `POST /machines/{machine_id}/predict` (predictions.py 60-181).
`rows` is the window fetched by the SQL query (ordered newest first by
`ts DESC`); `mlResult` is the outcome of `call_ml_service_with_retry`
(`Except.error ()` when every retry failed); `predId` stands for the id
the database generates for the new row; `preds` is the predictions table.
The payload built from the window only feeds the external call and is
subsumed by the `mlResult` oracle. -/
def predict (machine_id : String) (rows : List Reading)
    (mlResult : Except Unit PyVal) (predId : String) (preds : List PredRecord) :
    Except PredictErr PredictionResult × List PredRecord :=
  match rows with
  | [] => (Except.error PredictErr.notFound, preds)
  | first :: _ =>
      match mlResult with
      | Except.error _ => (Except.error PredictErr.mlError, preds)
      | Except.ok ml =>
          let n := normalize_ml ml
          let lbl := label_to_store n.prediction_label n.failure_prob
          let newRow := PredRecord.mk predId (some first.id) machine_id
            n.model_version lbl n.failure_prob
            (jsonOrEmpty n.raw_scores) (jsonOrEmpty n.raw_features) (jsonOrEmpty n.meta)
          (Except.ok
            (PredictionResult.mk predId n.model_version lbl n.failure_prob n.meta),
           preds ++ [newRow])

/-- Embeds `parse_metadata` (machine_utils.py 62-72).  The `json.loads` of
a string is not modelled: metadata reaching this point is a decoded
document or null, so the string branch collapses to its except-fallback
`{}`. -/
def parse_metadata : PyVal → PyVal
  | PyVal.none => PyVal.none
  | PyVal.dict fs => PyVal.dict fs
  | PyVal.str _ => PyVal.dict []
  | _ => PyVal.none

/-- The item `history` builds from a fetched predictions row
(predictions.py 208-215): note `score=float(d.get("failure_probability")
or 0)`. -/
def historyItem (d : PredRecord) : PredictionResult :=
  PredictionResult.mk d.id d.model_version d.prediction_label
    (some (pyOrZero d.failure_probability)) (parse_metadata d.metadata)

/-- Embeds `GET /machines/{machine_id}/prediction-history`
(predictions.py 187-217): `rows` is the result of the SQL query (already
filtered by machine, ordered `ts DESC`, limited). -/
def history (rows : List PredRecord) : List PredictionResult :=
  rows.map historyItem

-- ============================================================
-- Concrete inputs used by counterexamples and witnesses
-- ============================================================

/-- A concrete sensor reading used by counterexamples and witnesses. -/
def r0 : Reading :=
  Reading.mk "r0" "2024-01-01T00:00:00" "machine_01"
    (some 300) (some 310) (some 1500) (some 40) (some 10)

/-- A concrete endpoint oracle that fails on attempts 0-3 (with the attempt
index as the error) and succeeds on attempt 4 with value 99. -/
def fail4succ : ℕ → Except ℕ ℕ :=
  fun n => if n < 4 then Except.error n else Except.ok 99

/-- A concrete endpoint oracle that fails on every attempt with the attempt
index as the error. -/
def alwaysFail : ℕ → Except ℕ ℕ :=
  fun n => Except.error n

/-- A canonical remote response whose `failure_probability` is `0.0`. -/
def canonicalZeroDoc : PyVal :=
  PyVal.dict
    [("failure_probability", PyVal.num 0),
     ("prediction_label", PyVal.str "normal"),
     ("model_version", PyVal.str "v1"),
     ("raw_scores", PyVal.dict [("normal", PyVal.num 1)]),
     ("raw_features", PyVal.dict [("air_temperature", PyVal.num 300)]),
     ("meta", PyVal.dict [])]

/-- A concrete stored prediction row with a null `failure_probability`. -/
def pd0 : PredRecord :=
  PredRecord.mk "p0" Option.none "machine_01" PyVal.none (PyVal.str "normal")
    Option.none PyVal.none PyVal.none PyVal.none

-- ============================================================
-- C1: risk classification
-- ============================================================

/-- Claim C1: for every triple of optional inputs, `compute_risk` returns
Unknown when all three are null, else the Danger tier (`"Bahaya"`) when
temperature > 315 or vibration > 2200 or current > 85, else the Watch tier
(`"Waspada"`) when temperature > 305 or vibration > 1600 or current > 65,
else `"Normal"`, in strict priority order with strict greater-than
comparisons; a null input never triggers its own condition nor blocks
the condition of another input (as stated word-for-word by `computeRiskSpec`). -/
theorem c1_compute_risk_matches_spec (t v c : Option ℚ) :
    compute_risk t v c = computeRiskSpec t v c := by
  cases t <;> cases v <;> cases c <;>
    simp [compute_risk, computeRiskSpec, notNoneAndGt, specExceeds, Option.elim,
      or_assoc]

-- ============================================================
-- C2: retry with exponential backoff
-- ============================================================

/-- Claim C2: with the default `retries=5, backoff=0.5`, an endpoint that
fails on attempts 0-3 and succeeds on attempt 4 sees exactly 5 attempts and
the successful result returned (after sleeps 0.5, 1, 2, 4); an endpoint
that also fails on attempt 4 sees exactly 5 attempts, the last encountered
error raised (no synthetic result), and sleeps 0.5, 1, 2, 4, 8
(`backoff * 2 ** i`). -/
theorem c2_retry_five_attempts {E R : Type} (oracle : ℕ → Except E R)
    (e0 e1 e2 e3 : E)
    (h0 : oracle 0 = Except.error e0) (h1 : oracle 1 = Except.error e1)
    (h2 : oracle 2 = Except.error e2) (h3 : oracle 3 = Except.error e3) :
    (∀ r : R, oracle 4 = Except.ok r →
      call_ml_default oracle = RetryOutcome.mk (Except.ok r) 5 [1/2, 1, 2, 4]) ∧
    (∀ e4 : E, oracle 4 = Except.error e4 →
      call_ml_default oracle =
        RetryOutcome.mk (Except.error (some e4)) 5 [1/2, 1, 2, 4, 8]) := by
  constructor
  · intro r h4
    simp [call_ml_default, call_ml_service_with_retry, retryGo, h0, h1, h2, h3, h4]
    norm_num
  · intro e4 h4
    simp [call_ml_default, call_ml_service_with_retry, retryGo, h0, h1, h2, h3, h4]
    norm_num

/-- Witness for C2 at the two concrete oracles. -/
theorem c2_retry_five_attempts_witness :
    call_ml_default fail4succ = RetryOutcome.mk (Except.ok 99) 5 [1/2, 1, 2, 4] ∧
    call_ml_default alwaysFail =
      RetryOutcome.mk (Except.error (some 4)) 5 [1/2, 1, 2, 4, 8] :=
  ⟨(c2_retry_five_attempts fail4succ 0 1 2 3 rfl rfl rfl rfl).1 99 rfl,
   (c2_retry_five_attempts alwaysFail 0 1 2 3 rfl rfl rfl rfl).2 4 rfl⟩

-- ============================================================
-- C3: label derivation thresholds
-- ============================================================

/-- Claim C3: the derived label is `"normal"` strictly below 0.3,
`"warning"` strictly below 0.7, else `"failure"`; the boundaries 0.3 and
0.7 map to `"warning"` and `"failure"`, and an absent probability is
treated as 0.0, yielding `"normal"`. -/
theorem c3_label_thresholds :
    (∀ q : ℚ, q < 3/10 → score_to_label q = "normal") ∧
    (∀ q : ℚ, 3/10 ≤ q → q < 7/10 → score_to_label q = "warning") ∧
    (∀ q : ℚ, 7/10 ≤ q → score_to_label q = "failure") ∧
    score_to_label (3/10) = "warning" ∧
    score_to_label (7/10) = "failure" ∧
    derived_label Option.none = "normal" := by
  refine ⟨?_, ?_, ?_, ?_, ?_, ?_⟩
  · intro q h
    rw [score_to_label, if_pos h]
  · intro q h1 h2
    rw [score_to_label, if_neg (not_lt.mpr h1), if_pos h2]
  · intro q h
    rw [score_to_label, if_neg (not_lt.mpr (le_trans (by norm_num) h)),
      if_neg (not_lt.mpr h)]
  · norm_num [score_to_label]
  · norm_num [score_to_label]
  · norm_num [derived_label, pyOrZero, score_to_label]

/-- Witness for C3 at the probabilities 0.2, 0.5 and 0.9. -/
theorem c3_label_thresholds_witness :
    score_to_label (1/5) = "normal" ∧ score_to_label (1/2) = "warning" ∧
    score_to_label (9/10) = "failure" :=
  ⟨c3_label_thresholds.1 (1/5) (by norm_num),
   c3_label_thresholds.2.1 (1/2) (by norm_num) (by norm_num),
   c3_label_thresholds.2.2.1 (9/10) (by norm_num)⟩

-- ============================================================
-- C4: write fallback and failure reporting
-- ============================================================

/-- Claim C4 counterexample: with the durable backend configured, the
durable write failing AND the fallback append failing, `insert_reading`
still returns the generated id as a success and leaves the state
unchanged — contradicting the claim that the write reports failure to its
caller exactly when the fallback append fails (the append exception is
caught, logged, and swallowed in db_service.py 222-225). -/
theorem c4_insert_reading_counterexample :
    (insert_reading false false (DbState.mk (some []) []) r0).result =
      Except.ok "r0" ∧
    (insert_reading false false (DbState.mk (some []) []) r0).state =
      DbState.mk (some []) [] :=
  ⟨rfl, rfl⟩

/-- Claim C4 amended: every write first attempts the durable backend when
one is configured and on a durable-write failure falls through to the
volatile in-memory store; but the operation never reports failure to its
caller: even when the fallback append also fails the exception is swallowed
and the generated id is returned (the reading is then simply lost). -/
theorem c4_insert_reading_fallback (dbWriteOk memAppendOk : Bool)
    (st : DbState) (r : Reading) :
    (insert_reading dbWriteOk memAppendOk st r).result = Except.ok r.id ∧
    (∀ rows, st.durable = some rows → dbWriteOk = true →
      (insert_reading dbWriteOk memAppendOk st r).state =
        DbState.mk (some (rows ++ [r])) st.memory) ∧
    ((st.durable = Option.none ∨ dbWriteOk = false) → memAppendOk = true →
      (insert_reading dbWriteOk memAppendOk st r).state.memory = st.memory ++ [r] ∧
      (insert_reading dbWriteOk memAppendOk st r).state.durable = st.durable) ∧
    ((st.durable = Option.none ∨ dbWriteOk = false) → memAppendOk = false →
      (insert_reading dbWriteOk memAppendOk st r).state = st) := by
  obtain ⟨d, m⟩ := st
  cases d <;> cases dbWriteOk <;> cases memAppendOk <;>
    simp [insert_reading]

/-- Witness for C4 amended: a failed durable write followed by a successful
fallback append leaves the reading in the volatile store and still returns
success. -/
theorem c4_insert_reading_fallback_witness :
    (insert_reading false true (DbState.mk (some []) []) r0).state.memory =
      [] ++ [r0] ∧
    (insert_reading false true (DbState.mk (some []) []) r0).result =
      Except.ok r0.id :=
  ⟨((c4_insert_reading_fallback false true (DbState.mk (some []) []) r0).2.2.1
      (Or.inr rfl) rfl).1,
   (c4_insert_reading_fallback false true (DbState.mk (some []) []) r0).1⟩

-- ============================================================
-- C5: normalization idempotence on canonical input
-- ============================================================

/-- Claim C5 counterexample: a response already in canonical field names
whose `failure_probability` is `0.0` does NOT round-trip: the `or`-chain
`ml.get("failure_probability") or ml.get("score")` treats the float `0.0`
as falsy, falls through to the absent `score`, and the normalized
failure probability comes out null instead of `0.0`. -/
theorem c5_normalize_counterexample :
    (normalize_ml canonicalZeroDoc).failure_prob = Option.none ∧
    (normalize_ml canonicalZeroDoc).failure_prob ≠ some 0 := by
  constructor
  · rfl
  · intro h
    simp [canonicalZeroDoc, normalize_ml, pyGet, pyGetD, dget, pyOr, truthy,
      coerceFloat] at h

/-- Claim C5 amended: normalization is idempotent on canonical responses
whose canonical values are truthy — for a document carrying the canonical
names with a nonzero `failure_probability`, nonempty string
`prediction_label` and `model_version`, and truthy `raw_scores` and
`raw_features`, every field is returned exactly as given (the `meta` value
unconditionally). -/
theorem c5_normalize_idempotent (q : ℚ) (l mv : String) (rs rf m : PyVal)
    (hq : q ≠ 0) (hl : l ≠ "") (hmv : mv ≠ "")
    (hrs : truthy rs = true) (hrf : truthy rf = true) :
    normalize_ml (PyVal.dict
      [("failure_probability", PyVal.num q), ("prediction_label", PyVal.str l),
       ("model_version", PyVal.str mv), ("raw_scores", rs),
       ("raw_features", rf), ("meta", m)]) =
    Normalized.mk (some q) (PyVal.str l) (PyVal.str mv) rs rf m := by
  have ht : truthy (PyVal.num q) = true := by simp [truthy, hq]
  have htl : truthy (PyVal.str l) = true := by simp [truthy, hl]
  have htmv : truthy (PyVal.str mv) = true := by simp [truthy, hmv]
  simp [normalize_ml, pyGet, pyGetD, dget, pyOr, coerceFloat, pyFloat,
    ht, htl, htmv, hrs, hrf]

/-- Witness for C5 amended at a concrete canonical response. -/
theorem c5_normalize_idempotent_witness :
    normalize_ml (PyVal.dict
      [("failure_probability", PyVal.num (21/50)),
       ("prediction_label", PyVal.str "warning"),
       ("model_version", PyVal.str "v1"),
       ("raw_scores", PyVal.dict [("warning", PyVal.num 1)]),
       ("raw_features", PyVal.dict [("torque", PyVal.num 40)]),
       ("meta", PyVal.dict [])]) =
    Normalized.mk (some (21/50)) (PyVal.str "warning") (PyVal.str "v1")
      (PyVal.dict [("warning", PyVal.num 1)])
      (PyVal.dict [("torque", PyVal.num 40)]) (PyVal.dict []) :=
  c5_normalize_idempotent (21/50) "warning" "v1"
    (PyVal.dict [("warning", PyVal.num 1)])
    (PyVal.dict [("torque", PyVal.num 40)]) (PyVal.dict [])
    (by norm_num) (by decide) (by decide) rfl rfl

-- ============================================================
-- C6: failure-probability extraction preference
-- ============================================================

/-- Claim C6 counterexample: a response carrying both
`failure_probability` (= 0.0) and `score` (= 0.5) is normalized to the
`score` value 0.5, not to the first-present `failure_probability`: the
`or`-chain prefers the first TRUTHY value, not the first present one. -/
theorem c6_extract_counterexample :
    (normalize_ml (PyVal.dict
      [("failure_probability", PyVal.num 0), ("score", PyVal.num (1/2))])
      ).failure_prob = some (1/2) ∧
    (normalize_ml (PyVal.dict
      [("failure_probability", PyVal.num 0), ("score", PyVal.num (1/2))])
      ).failure_prob ≠ some 0 := by
  refine ⟨rfl, ?_⟩
  intro h
  rw [show (normalize_ml (PyVal.dict
      [("failure_probability", PyVal.num 0), ("score", PyVal.num (1/2))])
      ).failure_prob = some (1/2) from rfl] at h
  simp at h

/-- Claim C6 amended: `failureProbability` is extracted from
`failure_probability` whenever that value is truthy (regardless of a
`score` key); an extracted value that Python `float(...)` cannot parse
yields a null probability instead of failing the call. -/
theorem c6_extract_prefers_truthy (fs : List (String × PyVal)) (v : PyVal)
    (hv : dget fs "failure_probability" = some v) (htv : truthy v = true) :
    (normalize_ml (PyVal.dict fs)).failure_prob = pyFloat v ∧
    (pyFloat v = Option.none →
      (normalize_ml (PyVal.dict fs)).failure_prob = Option.none) := by
  have hne : v ≠ PyVal.none := by
    intro h
    rw [h] at htv
    simp [truthy] at htv
  have hmain : (normalize_ml (PyVal.dict fs)).failure_prob = pyFloat v := by
    simp only [normalize_ml, pyGet, hv, Option.getD, pyOr, htv, if_true]
    cases v with
    | none => exact absurd rfl hne
    | num q => rfl
    | str s => rfl
    | bool b => rfl
    | list xs => rfl
    | dict fs2 => rfl
  exact ⟨hmain, fun hp => by rw [hmain, hp]⟩

/-- Witness for C6 amended: an unparsable string probability (with a
parsable `score` also present) yields a null probability. -/
theorem c6_extract_prefers_truthy_witness :
    (normalize_ml (PyVal.dict
      [("failure_probability", PyVal.str "abc"),
       ("score", PyVal.num (3/4))])).failure_prob = Option.none :=
  (c6_extract_prefers_truthy
    [("failure_probability", PyVal.str "abc"), ("score", PyVal.num (3/4))]
    (PyVal.str "abc") rfl rfl).2 rfl

-- ============================================================
-- C7: predict failure paths persist nothing
-- ============================================================

/-- Claim C7: `predict` fails with NotFound (HTTP 404) when the machine has
no stored readings, and surfaces the ML-service failure (HTTP 502) when the
remote call exhausted its retries; in both cases the predictions table is
returned unchanged — nothing is persisted on error. -/
theorem c7_predict_error_paths :
    (∀ (mid : String) (mlResult : Except Unit PyVal) (predId : String)
        (preds : List PredRecord),
      predict mid [] mlResult predId preds =
        (Except.error PredictErr.notFound, preds)) ∧
    (∀ (mid : String) (first : Reading) (rest : List Reading) (predId : String)
        (preds : List PredRecord),
      predict mid (first :: rest) (Except.error ()) predId preds =
        (Except.error PredictErr.mlError, preds)) :=
  ⟨fun _ _ _ _ => rfl, fun _ _ _ _ _ => rfl⟩

-- ============================================================
-- C8: successful predict persists exactly one labelled record
-- ============================================================

/-- Claim C8: every successful `predict` invocation appends exactly one row
to the predictions table; its stored label is never null — it is the
remote-provided label when present, else the threshold-derived label from
the (absent-defaulted-to-0.0) probability — and its `sensor_reading_id` is
the id of the first row of the newest-first window. -/
theorem c8_predict_persists_one (mid : String) (first : Reading)
    (rest : List Reading) (ml : PyVal) (predId : String)
    (preds : List PredRecord) :
    ∃ newRow : PredRecord,
      (predict mid (first :: rest) (Except.ok ml) predId preds).2 =
        preds ++ [newRow] ∧
      ((predict mid (first :: rest) (Except.ok ml) predId preds).2).length =
        preds.length + 1 ∧
      isPyNone newRow.prediction_label = false ∧
      newRow.sensor_reading_id = some first.id ∧
      newRow.prediction_label =
        label_to_store (normalize_ml ml).prediction_label
          (normalize_ml ml).failure_prob := by
  refine ⟨PredRecord.mk predId (some first.id) mid (normalize_ml ml).model_version
      (label_to_store (normalize_ml ml).prediction_label
        (normalize_ml ml).failure_prob)
      (normalize_ml ml).failure_prob
      (jsonOrEmpty (normalize_ml ml).raw_scores)
      (jsonOrEmpty (normalize_ml ml).raw_features)
      (jsonOrEmpty (normalize_ml ml).meta),
    rfl, by simp [predict], ?_, rfl, rfl⟩
  cases h : (normalize_ml ml).prediction_label <;>
    simp [label_to_store, isPyNone, h]

-- ============================================================
-- C9: listReadings bounds validation
-- ============================================================

/-- Claim C9 counterexample: a `GET /ingest` request with `limit = 1` is
rejected with a validation error, because the parameter is declared
`Query(100, gt=1, le=5000)` — strictly GREATER THAN ONE, not strictly
positive as the claim states. -/
theorem c9_get_ingest_counterexample :
    get_ingest [] Option.none 1 0 = Except.error () ∧ limit_ok 1 = false :=
  ⟨rfl, rfl⟩

/-- Claim C9 amended: `limit` is accepted if and only if it is strictly
greater than 1 and at most 5000 (so `limit = 1` is rejected), `offset` if
and only if it is non-negative, and every accepted request delegates
directly to the storage query `fetch_readings`. -/
theorem c9_get_ingest_bounds (store : List Reading)
    (machine_id : Option String) (limit offset : ℤ) :
    (limit_ok limit = true ↔ 1 < limit ∧ limit ≤ 5000) ∧
    (offset_ok offset = true ↔ 0 ≤ offset) ∧
    (1 < limit → limit ≤ 5000 → 0 ≤ offset →
      get_ingest store machine_id limit offset =
        Except.ok (fetch_readings store machine_id limit.toNat offset.toNat)) ∧
    (limit ≤ 1 ∨ 5000 < limit ∨ offset < 0 →
      get_ingest store machine_id limit offset = Except.error ()) := by
  refine ⟨by simp [limit_ok], by simp [offset_ok], ?_, ?_⟩
  · intro h1 h2 h3
    simp [get_ingest, limit_ok, offset_ok, h1, h2, h3]
  · intro h
    rw [get_ingest, if_neg]
    simp only [limit_ok, offset_ok, Bool.and_eq_true, decide_eq_true_eq]
    omega

/-- Witness for C9 amended: `limit = 2, offset = 0` is accepted and
delegates to the storage query. -/
theorem c9_get_ingest_bounds_witness :
    get_ingest [r0] Option.none 2 0 =
      Except.ok (fetch_readings [r0] Option.none (2 : ℤ).toNat (0 : ℤ).toNat) :=
  (c9_get_ingest_bounds [r0] Option.none 2 0).2.2.1
    (by norm_num) (by norm_num) (by norm_num)

-- ============================================================
-- C10: history score is never null
-- ============================================================

/-- Claim C10: every item returned by the prediction-history query has a
non-null score — `score=float(d.get("failure_probability") or 0)` maps a
stored null (or zero) probability to the score 0.0. -/
theorem c10_history_score_not_null (rows : List PredRecord) (d : PredRecord) :
    (∀ it ∈ history rows, ∃ q : ℚ, it.score = some q) ∧
    (historyItem d).score = some (pyOrZero d.failure_probability) ∧
    (d.failure_probability = Option.none ∨ d.failure_probability = some 0 →
      (historyItem d).score = some 0) := by
  refine ⟨?_, rfl, ?_⟩
  · intro it hit
    rw [history, List.mem_map] at hit
    obtain ⟨x, _, hx⟩ := hit
    exact ⟨pyOrZero x.failure_probability, by rw [← hx]; rfl⟩
  · rintro (h | h) <;> simp [historyItem, pyOrZero, h]

/-- Witness for C10 at a stored row with a null probability. -/
theorem c10_history_score_not_null_witness :
    (historyItem pd0).score = some 0 :=
  (c10_history_score_not_null [] pd0).2.2 (Or.inl rfl)

end PMC
